import Mathlib

/-!
Verification of the syncbuddy repository: a shallow embedding of its
security policy, directory-descriptor model, location preprocessing,
matcher, job planner and job executor, together with theorems settling
the specification claims.

Sources embedded:
  src/src/path_wrapper.py            (MyPath, DirectoryWrapper)
  src/src/security.py / src/src/syncbuddy/security/helper.py (check_security)
  src/src/syncbuddy/sync/matching.py (check_matching_locations)
  src/src/sync/helper.py             (preprocess_location, build_sync_jobs)
  src/src/syncbuddy/sync/sync.py     (execute_sync_jobs)
  src/src/syncbuddy/globals.py       (Globals.CIPHERTEXT_ENDING)
-/

/-! ### POSIX path helpers

Python pathlib semantics (PurePosixPath) modelled over character lists:
splitting on the separator, dropping empty and single-dot components,
suffix extraction of the final component, parent computation. -/

/-- First character is the separator: embedding of the Python test
pth_dir.startswith(`/`) and of PurePosixPath absoluteness. -/
def startsWithSlash (s : String) : Bool :=
  match s.data with
  | [] => false
  | c :: _ => c == '/'

/-- Strip every trailing separator: embedding of Python rstrip on the
separator used in DirectoryWrapper.__init__ (src/src/path_wrapper.py:101). -/
def rstripSlash (s : String) : String :=
  String.mk ((s.data.reverse.dropWhile (fun c => c == '/')).reverse)

/-- Split a character list at every separator. -/
def splitSlash : List Char → List (List Char)
  | [] => [[]]
  | c :: cs =>
    let r := splitSlash cs
    if c = '/' then [] :: r
    else
      match r with
      | [] => [[c]]
      | h :: t => (c :: h) :: t

/-- Non-trivial path components of a string: empty and single-dot segments
are dropped, as PurePosixPath normalisation does. -/
def pathComponents (s : String) : List (List Char) :=
  (splitSlash s.data).filter (fun c => !(c.isEmpty) && !(c == ['.']))

/-- Join two path segments the way pathlib's slash operator does: a second
segment that is absolute replaces the first. -/
def pyJoin2 (a b : String) : String :=
  if startsWithSlash b then b
  else if a == "" then b
  else if b == "" then a
  else a ++ "/" ++ b

/-- Normalised rendering of Path(s): components joined by the separator,
a single dot for an empty relative path. -/
def pyPath (s : String) : String :=
  let comps := pathComponents s
  if startsWithSlash s then String.mk ('/' :: List.intercalate ['/'] comps)
  else if comps == [] then "."
  else String.mk (List.intercalate ['/'] comps)

/-- Parent directory of Path(s): drop the last component;
the parent of the root is the root, of a single relative
component the current directory, as in pathlib. -/
def pyPathParent (s : String) : String :=
  let comps := pathComponents s
  let dropped := comps.dropLast
  if dropped == [] then (if startsWithSlash s then "/" else ".")
  else if startsWithSlash s then String.mk ('/' :: List.intercalate ['/'] dropped)
  else String.mk (List.intercalate ['/'] dropped)

/-- Characters of the final component of a rendered path (Path.name). -/
def lastComponentChars (s : String) : List Char :=
  (pathComponents s).getLastD []

/-- CPython pathlib suffix of a name: the substring from the last dot,
provided that dot is neither the first nor the last character. -/
def pySuffix (name : List Char) : List Char :=
  match name.reverse.findIdx? (fun c => c == '.') with
  | none => []
  | some j =>
    let i := name.length - 1 - j
    if 0 < i && i + 1 < name.length then name.drop i else []

/-- Case-insensitive equality of character lists (str.lower comparison). -/
def lowerEq (a b : List Char) : Bool :=
  (a.map Char.toLower) == (b.map Char.toLower)

/-! ### Data model -/

/-- Remote endpoint attached to a location (the ssh_info dictionaries). -/
structure SshInfo where
  username : String
  hostname : String
  port : Option Nat
  deriving DecidableEq

/-- Embedding of MyPath (src/src/path_wrapper.py:13): a system root, path
root and sub-path triple with an optional remote endpoint. -/
structure MyPath where
  sys_root : String
  pth_root : String
  sub_pth : String
  ssh_info : Option SshInfo
  deriving DecidableEq

/-- The absolute path string: concatenation of the three segments,
as Path(sys_root) / pth_root / sub_pth. -/
def MyPath.absStr (p : MyPath) : String :=
  pyJoin2 (pyJoin2 p.sys_root p.pth_root) p.sub_pth

/-- Embedding of the MyPath.suffix property: the pathlib suffix of the
final component of the absolute path. -/
def MyPath.pathSuffix (p : MyPath) : String :=
  String.mk (pySuffix (lastComponentChars p.absStr))

/-- Embedding of MyPath.has_suffix: case-insensitive suffix comparison
(src/src/path_wrapper.py:37). -/
def MyPath.has_suffix (p : MyPath) (sfx : String) : Bool :=
  lowerEq p.pathSuffix.data sfx.data

namespace Globals

/-- The ciphertext suffix (src/src/syncbuddy/globals.py:2). -/
def CIPHERTEXT_ENDING : String := ".crypt"

end Globals

/-- Modelled from the spec: the EncryptionMode enum. Its module
src/security/encryption_mode.py is absent from the sources; the spec
names exactly two recognized modes, per-file and whole-directory-archive.
The OTHER constructor stands for any further runtime value the
dynamically typed encryption_mode field could carry, which
build_sync_jobs rejects defensively. -/
inductive EncryptionMode where
  | FILE
  | DIRECTORY
  | OTHER (raw : String)
  deriving DecidableEq

/-- True exactly for the two recognized encryption modes. -/
def EncryptionMode.recognized : EncryptionMode → Bool
  | .FILE => true
  | .DIRECTORY => true
  | .OTHER _ => false

/-- Modelled from the spec: parsing a configured mode string (module
src/security/encryption_mode.py absent). The default raw value is
"file" (src/src/sync/helper.py:35); an unrecognized string raises. -/
def EncryptionMode.ofString (raw : String) : Except String EncryptionMode :=
  if raw == "file" then Except.ok EncryptionMode.FILE
  else if raw == "directory" then Except.ok EncryptionMode.DIRECTORY
  else Except.error ("Invalid encryption mode: " ++ raw)

/-- Embedding of DirectoryWrapper (src/src/path_wrapper.py:90): one
configured directory inside a location. -/
structure DirectoryWrapper where
  ssh_info : Option SshInfo
  root_path : MyPath
  sensitive_folders : List MyPath
  exclude_folders : List MyPath
  is_sensitive : Bool
  encryption_mode : EncryptionMode
  deriving DecidableEq

/-- Embedding of DirectoryWrapper.__init__ (src/src/path_wrapper.py:93):
rejects an absolute sub-path, strips trailing separators, starts with
empty sensitive and exclude lists. -/
def DirectoryWrapper.mkInit (sys_root pth_dir : String) (ssh_info : Option SshInfo)
    (sensitive : Bool) (encryption_mode : EncryptionMode) :
    Except String DirectoryWrapper :=
  if startsWithSlash pth_dir then
    Except.error ("Absolute path ignored: " ++ pth_dir)
  else
    Except.ok
      { ssh_info := ssh_info
        root_path :=
          { sys_root := sys_root, pth_root := rstripSlash pth_dir
            sub_pth := "", ssh_info := ssh_info }
        sensitive_folders := []
        exclude_folders := []
        is_sensitive := sensitive
        encryption_mode := encryption_mode }

/-- Embedding of DirectoryWrapper.get_dir_path (src/src/path_wrapper.py:117). -/
def DirectoryWrapper.get_dir_path (w : DirectoryWrapper) : MyPath :=
  w.root_path

/-- Embedding of DirectoryWrapper._process_paths (src/src/path_wrapper.py:133):
append one MyPath rooted at the directory per non-null entry, in order. -/
def processPaths (root : MyPath) (ssh_info : Option SshInfo)
    (subdirs : List (Option String)) (target : List MyPath) : List MyPath :=
  subdirs.foldl
    (fun acc sd =>
      match sd with
      | none => acc
      | some s =>
        acc ++ [{ sys_root := root.sys_root, pth_root := root.pth_root
                  sub_pth := s, ssh_info := ssh_info }])
    target

/-- Embedding of DirectoryWrapper.process_exclude_paths
(src/src/path_wrapper.py:160). -/
def DirectoryWrapper.process_exclude_paths (w : DirectoryWrapper)
    (subdirs : List (Option String)) : DirectoryWrapper :=
  { w with exclude_folders := processPaths w.root_path w.ssh_info subdirs w.exclude_folders }

/-- Embedding of DirectoryWrapper.process_sensitive_folders
(src/src/path_wrapper.py:150): skipped entirely when the whole directory
is marked sensitive. -/
def DirectoryWrapper.process_sensitive_folders (w : DirectoryWrapper)
    (subdirs : List (Option String)) : DirectoryWrapper :=
  if w.is_sensitive then w
  else { w with sensitive_folders := processPaths w.root_path w.ssh_info subdirs w.sensitive_folders }

/-- Embedding of DirectoryWrapper.get_exclude_dirs
(src/src/path_wrapper.py:176): the sub-paths of the exclude list, with
the sensitive list appended when merging is requested. -/
def DirectoryWrapper.get_exclude_dirs (w : DirectoryWrapper)
    (merge_with_sensitive_dirs : Bool) : List String :=
  (if merge_with_sensitive_dirs then w.exclude_folders ++ w.sensitive_folders
   else w.exclude_folders).map (fun p => p.sub_pth)

/-! ### Security policy -/

/-- Embedding of check_security (src/src/syncbuddy/security/helper.py:6,
identical in src/src/security.py:9): encrypt when unencrypted sensitive
data moves to an untrusted location, decrypt when sensitive data moves
to a trusted one; raises when both hold. -/
def check_security (src : DirectoryWrapper) (dst_trusted : Bool) :
    Except String (Bool × Bool) :=
  let src_path := src.get_dir_path
  let encrypt := src.is_sensitive && (!dst_trusted) &&
    !(src_path.has_suffix Globals.CIPHERTEXT_ENDING)
  let decrypt := src.is_sensitive && dst_trusted
  if encrypt && decrypt then
    Except.error "Invalid state: trying to encrypt and decrypt at the same time."
  else
    Except.ok (encrypt, decrypt)

/-- The value check_security always returns. -/
theorem check_security_eq (s : DirectoryWrapper) (t : Bool) :
    check_security s t =
      Except.ok
        (s.is_sensitive && (!t) && !(MyPath.has_suffix s.get_dir_path Globals.CIPHERTEXT_ENDING),
         s.is_sensitive && t) := by
  unfold check_security
  cases hs : s.is_sensitive <;> cases t <;> simp

/-- Claim C1: check_security returns encrypt equal to sensitivity and
untrusted destination and no ciphertext suffix, decrypt equal to
sensitivity and trusted destination; a descriptor with the sensitivity
flag cleared always yields the pair of two false flags. -/
theorem c1_check_security_formula (s : DirectoryWrapper) (t : Bool) :
    check_security s t =
      Except.ok
        (s.is_sensitive && (!t) && !(MyPath.has_suffix s.get_dir_path Globals.CIPHERTEXT_ENDING),
         s.is_sensitive && t)
    ∧ check_security { s with is_sensitive := false } t = Except.ok (false, false) := by
  refine ⟨check_security_eq s t, ?_⟩
  rw [check_security_eq]
  simp [DirectoryWrapper.get_dir_path]

/-- Claim C2: check_security never produces both flags true, and its
invariant-violation error branch is unreachable: on every input it
returns a pair whose conjunction is false. -/
theorem c2_no_simultaneous_encrypt_decrypt (s : DirectoryWrapper) (t : Bool) :
    ∃ e d, check_security s t = Except.ok (e, d) ∧ (e && d) = false := by
  refine ⟨_, _, check_security_eq s t, ?_⟩
  cases hs : s.is_sensitive <;> cases t <;> simp

/-! ### Synchronization jobs and the job planner -/

/-- Embedding of the SyncJob dataclass (src/src/sync_job.py:8, extended
with the encryption_mode field that src/src/sync/helper.py passes to it). -/
structure SyncJob where
  src : MyPath
  dst : MyPath
  encrypt : Bool
  decrypt : Bool
  excludes : List String
  ssh : Option SshInfo
  encryption_mode : EncryptionMode
  deriving DecidableEq

/-- A processed location as the planner consumes it: the processed_dirs
list and the trusted flag (dst_location.get of trusted, default false). -/
structure Location where
  processed_dirs : List DirectoryWrapper
  trusted : Bool
  deriving DecidableEq

/-- Sequence a fallible step over a list, stopping at the first failure,
the way a Python for-loop propagates the first exception raised. -/
def exceptMapM {α β : Type} (f : α → Except String β) : List α → Except String (List β)
  | [] => Except.ok []
  | x :: xs =>
    match f x with
    | Except.error e => Except.error e
    | Except.ok y =>
      match exceptMapM f xs with
      | Except.error e => Except.error e
      | Except.ok ys => Except.ok (y :: ys)

/-- Python truthiness of dst_ssh or src_ssh: the first endpoint when
present, otherwise the second. -/
def pyOrOpt (a b : Option SshInfo) : Option SshInfo :=
  match a with
  | some x => some x
  | none => b

/-- The relative destination of a split job (src/src/sync/helper.py:122):
the sub-path itself in per-file mode, its parent in directory mode, an
unsupported-mode error otherwise. -/
def splitDstRel (mode : EncryptionMode) (sub : String) : Except String String :=
  match mode with
  | .FILE => Except.ok (pyPath sub)
  | .DIRECTORY => Except.ok (pyPathParent sub)
  | .OTHER raw => Except.error ("Unsupported encryption mode: " ++ raw)

/-- The derived job built for one sensitive sub-path
(src/src/sync/helper.py:120): always encrypted, never decrypted, no
excludes, destination rooted at the destination directory. -/
def splitJobOf (src_dir dst_dir : DirectoryWrapper) (sens_dir : MyPath) :
    Except String SyncJob :=
  let dst_base := dst_dir.get_dir_path
  let dst_ssh := dst_dir.ssh_info
  match splitDstRel src_dir.encryption_mode sens_dir.sub_pth with
  | Except.error e => Except.error e
  | Except.ok rel =>
    Except.ok
      { src := sens_dir
        dst := { sys_root := dst_base.sys_root, pth_root := dst_base.pth_root
                 sub_pth := rel, ssh_info := dst_ssh }
        encrypt := true
        decrypt := false
        excludes := []
        ssh := dst_ssh
        encryption_mode := src_dir.encryption_mode }

/-- The loop body of build_sync_jobs for one matched pair
(src/src/sync/helper.py:89): the primary job, followed by one derived
job per sensitive sub-path when the destination is untrusted and
sensitive sub-paths are registered. -/
def jobsForPair (dst_trusted : Bool) (src_dir dst_dir : DirectoryWrapper) :
    Except String (List SyncJob) :=
  match check_security src_dir dst_trusted with
  | Except.error e => Except.error e
  | Except.ok (encrypt, decrypt) =>
    let sens_dirs_exist := (!dst_trusted) && decide (0 < src_dir.sensitive_folders.length)
    let primary : SyncJob :=
      { src := src_dir.get_dir_path
        dst := dst_dir.get_dir_path
        encrypt := encrypt
        decrypt := decrypt
        excludes := src_dir.get_exclude_dirs sens_dirs_exist
        ssh := pyOrOpt dst_dir.ssh_info src_dir.ssh_info
        encryption_mode := src_dir.encryption_mode }
    if sens_dirs_exist then
      match exceptMapM (splitJobOf src_dir dst_dir) src_dir.sensitive_folders with
      | Except.error e => Except.error e
      | Except.ok splits => Except.ok (primary :: splits)
    else
      Except.ok [primary]

/-- Embedding of build_sync_jobs (src/src/sync/helper.py:69): matched
pairs in zip order, each contributing its primary job and then its
derived jobs. -/
def build_sync_jobs (src_location dst_location : Location) :
    Except String (List SyncJob) :=
  match exceptMapM (fun pr => jobsForPair dst_location.trusted pr.1 pr.2)
      (src_location.processed_dirs.zip dst_location.processed_dirs) with
  | Except.error e => Except.error e
  | Except.ok jobss => Except.ok jobss.flatten

/-! ### Matcher -/

/-- Embedding of check_matching_locations
(src/src/syncbuddy/sync/matching.py:51, identical in src/src/sync.py:10):
scan the sources in order, fail on a source without an index-aligned
destination or on a sensitivity mismatch; surplus destinations are only
warned about. -/
def check_matching_locations : List DirectoryWrapper → List DirectoryWrapper → Bool
  | [], _ => true
  | _ :: _, [] => false
  | s :: ss, d :: ds =>
    if s.is_sensitive != d.is_sensitive then false
    else check_matching_locations ss ds

/-! ### Job executor -/

/-- Outcomes of the external effects one job triggers: destination
creation, the encryption collaborator, the transfer tool, and one
decryption outcome per ciphertext found at the destination. -/
structure JobEffects where
  create_dir_ok : Bool
  encrypt_result : Option MyPath
  rsync_ok : Bool
  decrypt_results : List Bool
  deriving DecidableEq

/-- Errors one loop iteration of execute_sync_jobs adds to the counter
(src/src/syncbuddy/sync/sync.py:90): a destination-creation failure
skips the job without touching the counter; an encryption failure or a
transfer failure adds one; each failed decryption adds one. The path
strings handed to the transfer tool are elided: they do not feed the
counter. -/
def runJob (job : SyncJob) (e : JobEffects) : Nat :=
  if e.create_dir_ok = false then 0
  else
    match (if job.encrypt then e.encrypt_result else some job.src) with
    | none => 1
    | some _ =>
      if e.rsync_ok = false then 1
      else (e.decrypt_results.filter (fun ok => ok == false)).length

/-- Embedding of execute_sync_jobs (src/src/syncbuddy/sync/sync.py:72)
over a trace pairing each job with its external-effect outcomes: every
job is attempted; the run succeeds exactly when the error counter ends
at zero. -/
def execute_sync_jobs (trace : List (SyncJob × JobEffects)) : Bool :=
  decide ((trace.foldl (fun n p => n + runJob p.1 p.2) 0) = 0)

/-! ### Location preprocessing -/

/-- One configured directory entry of a location (the loc_to_sync
dictionaries consumed by preprocess_location, src/src/sync/helper.py:30). -/
structure DirEntry where
  sensitive : Bool
  path : String
  encryption_mode : Option String
  exclude_folders : Option (List (Option String))
  sensitive_folders : Option (List (Option String))
  deriving DecidableEq

/-- A raw location configuration: endpoint, role, root directory and
configured directory entries (src/src/sync/helper.py:23). -/
structure LocationConfig where
  ssh : Option SshInfo
  location_type : String
  root_dir : String
  dirs : List DirEntry
  deriving DecidableEq

/-- Source-role sub-path resolution for one entry
(src/src/sync/helper.py:52): excludes first, then sensitive folders. -/
def processEntrySubdirs (loc0 : DirectoryWrapper) (entry : DirEntry) :
    DirectoryWrapper :=
  let loc1 :=
    match entry.exclude_folders with
    | some ex => loc0.process_exclude_paths ex
    | none => loc0
  match entry.sensitive_folders with
  | some sf => loc1.process_sensitive_folders sf
  | none => loc1

/-- The entry loop of preprocess_location (src/src/sync/helper.py:30),
parameterised by the existence oracle the filesystem provides: parse the
mode, build the descriptor, skip source entries whose directory does not
exist, resolve sub-paths for the source role only. -/
def preprocessDirs (existsFn : MyPath → Bool) (ssh : Option SshInfo)
    (location_type : String) (root_dir : String) :
    List DirEntry → Except String (List DirectoryWrapper)
  | [] => Except.ok []
  | entry :: rest =>
    match EncryptionMode.ofString (entry.encryption_mode.getD "file") with
    | Except.error e => Except.error e
    | Except.ok mode =>
      match DirectoryWrapper.mkInit root_dir entry.path ssh entry.sensitive mode with
      | Except.error e => Except.error e
      | Except.ok loc0 =>
        if (location_type == "src") && !(existsFn loc0.get_dir_path) then
          preprocessDirs existsFn ssh location_type root_dir rest
        else
          let loc1 := if location_type == "src" then processEntrySubdirs loc0 entry else loc0
          match preprocessDirs existsFn ssh location_type root_dir rest with
          | Except.error e => Except.error e
          | Except.ok rest2 => Except.ok (loc1 :: rest2)

/-- Embedding of preprocess_location (src/src/sync/helper.py:9),
returning the processed descriptor list explicitly. -/
def preprocess_location (existsFn : MyPath → Bool) (location : LocationConfig) :
    Except String (List DirectoryWrapper) :=
  preprocessDirs existsFn location.ssh location.location_type location.root_dir location.dirs

/-! ### Shared lemmas about the planner -/

/-- Sequencing a step that never fails collapses to map. -/
theorem list_mapM_ok {α β : Type} (f : α → Except String β) (g : α → β)
    (h : ∀ x, f x = Except.ok (g x)) :
    ∀ xs : List α, exceptMapM f xs = Except.ok (xs.map g) := by
  intro xs
  induction xs with
  | nil => rfl
  | cons a l ih => simp [exceptMapM, h a, ih]

/-- For a recognized encryption mode every split job materialises: there
is a per-sub-path job builder with the always-encrypt, never-decrypt,
no-excludes shape. -/
theorem splitJobOf_recognized (s d : DirectoryWrapper)
    (hm : s.encryption_mode.recognized = true) :
    ∃ gs : MyPath → SyncJob,
      (∀ x, splitJobOf s d x = Except.ok (gs x))
      ∧ (∀ x, (gs x).encrypt = true ∧ (gs x).decrypt = false ∧ (gs x).excludes = []) := by
  cases hmode : s.encryption_mode with
  | FILE =>
    refine ⟨fun x =>
      { src := x
        dst := { sys_root := d.get_dir_path.sys_root, pth_root := d.get_dir_path.pth_root
                 sub_pth := pyPath x.sub_pth, ssh_info := d.ssh_info }
        encrypt := true, decrypt := false, excludes := []
        ssh := d.ssh_info, encryption_mode := EncryptionMode.FILE }, ?_, ?_⟩
    · intro x
      simp [splitJobOf, splitDstRel, hmode]
    · intro x
      exact ⟨rfl, rfl, rfl⟩
  | DIRECTORY =>
    refine ⟨fun x =>
      { src := x
        dst := { sys_root := d.get_dir_path.sys_root, pth_root := d.get_dir_path.pth_root
                 sub_pth := pyPathParent x.sub_pth, ssh_info := d.ssh_info }
        encrypt := true, decrypt := false, excludes := []
        ssh := d.ssh_info, encryption_mode := EncryptionMode.DIRECTORY }, ?_, ?_⟩
    · intro x
      simp [splitJobOf, splitDstRel, hmode]
    · intro x
      exact ⟨rfl, rfl, rfl⟩
  | OTHER raw =>
    rw [hmode] at hm
    simp [EncryptionMode.recognized] at hm

/-- Claim C3: for a matched pair with an untrusted destination and at
least one registered sensitive sub-path, the planner emits the primary
job first and then exactly one derived job per sensitive sub-path; the
primary excludes are the ordinary excludes followed by every sensitive
sub-path, and every derived job encrypts, never decrypts, and carries no
excludes. The per-pair list is exactly what build_sync_jobs emits for
that matched pair. -/
theorem c3_untrusted_split_jobs (s d : DirectoryWrapper)
    (hn : 0 < s.sensitive_folders.length)
    (hm : s.encryption_mode.recognized = true) :
    ∃ primary splits,
      jobsForPair false s d = Except.ok (primary :: splits)
      ∧ (∀ st : Bool, build_sync_jobs ⟨[s], st⟩ ⟨[d], false⟩ = Except.ok (primary :: splits))
      ∧ splits.length = s.sensitive_folders.length
      ∧ primary.excludes = (s.exclude_folders ++ s.sensitive_folders).map (fun p => p.sub_pth)
      ∧ ∀ j ∈ splits, j.encrypt = true ∧ j.decrypt = false ∧ j.excludes = [] := by
  obtain ⟨gs, hgs, hprops⟩ := splitJobOf_recognized s d hm
  have hmapM := list_mapM_ok (splitJobOf s d) gs hgs s.sensitive_folders
  have hjob : jobsForPair false s d =
      Except.ok
        (({ src := s.get_dir_path, dst := d.get_dir_path
            encrypt := s.is_sensitive && !(MyPath.has_suffix s.get_dir_path Globals.CIPHERTEXT_ENDING)
            decrypt := false
            excludes := s.get_exclude_dirs true
            ssh := pyOrOpt d.ssh_info s.ssh_info
            encryption_mode := s.encryption_mode } : SyncJob) :: s.sensitive_folders.map gs) := by
    unfold jobsForPair
    rw [check_security_eq]
    simp [hn, hmapM]
  refine ⟨_, _, hjob, ?_, by simp, ?_, ?_⟩
  · intro st
    unfold build_sync_jobs
    simp [exceptMapM, hjob]
  · simp [DirectoryWrapper.get_exclude_dirs]
  · intro j hj
    obtain ⟨x, _, rfl⟩ := List.mem_map.mp hj
    exact hprops x

/-- Claim C4: a derived job's destination is the destination root
extended by the sensitive sub-path itself in per-file mode, by the
sub-path's parent in whole-directory-archive mode; any other
encryption-mode value makes the planner fail with the
unsupported-mode configuration error. -/
theorem c4_split_destination (s d : DirectoryWrapper) :
    (s.encryption_mode = EncryptionMode.FILE →
      ∃ primary, jobsForPair false s d =
        Except.ok (primary :: s.sensitive_folders.map (fun x =>
          ({ src := x
             dst := { sys_root := d.get_dir_path.sys_root, pth_root := d.get_dir_path.pth_root
                      sub_pth := pyPath x.sub_pth, ssh_info := d.ssh_info }
             encrypt := true, decrypt := false, excludes := []
             ssh := d.ssh_info, encryption_mode := EncryptionMode.FILE } : SyncJob))))
    ∧ (s.encryption_mode = EncryptionMode.DIRECTORY →
      ∃ primary, jobsForPair false s d =
        Except.ok (primary :: s.sensitive_folders.map (fun x =>
          ({ src := x
             dst := { sys_root := d.get_dir_path.sys_root, pth_root := d.get_dir_path.pth_root
                      sub_pth := pyPathParent x.sub_pth, ssh_info := d.ssh_info }
             encrypt := true, decrypt := false, excludes := []
             ssh := d.ssh_info, encryption_mode := EncryptionMode.DIRECTORY } : SyncJob))))
    ∧ (∀ raw, s.encryption_mode = EncryptionMode.OTHER raw →
        0 < s.sensitive_folders.length →
        ∃ msg, jobsForPair false s d = Except.error msg) := by
  refine ⟨?_, ?_, ?_⟩
  · intro hmode
    rcases hsf : s.sensitive_folders with _ | ⟨y, ys⟩
    · refine ⟨{ src := s.get_dir_path, dst := d.get_dir_path
                encrypt := s.is_sensitive && !(MyPath.has_suffix s.get_dir_path Globals.CIPHERTEXT_ENDING)
                decrypt := false, excludes := s.get_exclude_dirs false
                ssh := pyOrOpt d.ssh_info s.ssh_info
                encryption_mode := s.encryption_mode }, ?_⟩
      unfold jobsForPair
      rw [check_security_eq]
      simp [hsf]
    · have hn : 0 < s.sensitive_folders.length := by rw [hsf]; simp
      have hgs : ∀ x, splitJobOf s d x =
          Except.ok
            ({ src := x
               dst := { sys_root := d.get_dir_path.sys_root, pth_root := d.get_dir_path.pth_root
                        sub_pth := pyPath x.sub_pth, ssh_info := d.ssh_info }
               encrypt := true, decrypt := false, excludes := []
               ssh := d.ssh_info, encryption_mode := EncryptionMode.FILE } : SyncJob) := by
        intro x
        simp [splitJobOf, splitDstRel, hmode]
      have hmapM := list_mapM_ok (splitJobOf s d) _ hgs s.sensitive_folders
      refine ⟨{ src := s.get_dir_path, dst := d.get_dir_path
                encrypt := s.is_sensitive && !(MyPath.has_suffix s.get_dir_path Globals.CIPHERTEXT_ENDING)
                decrypt := false, excludes := s.get_exclude_dirs true
                ssh := pyOrOpt d.ssh_info s.ssh_info
                encryption_mode := s.encryption_mode }, ?_⟩
      rw [hsf] at hmapM
      unfold jobsForPair
      rw [check_security_eq]
      simp [hn, hmapM, hsf]
  · intro hmode
    rcases hsf : s.sensitive_folders with _ | ⟨y, ys⟩
    · refine ⟨{ src := s.get_dir_path, dst := d.get_dir_path
                encrypt := s.is_sensitive && !(MyPath.has_suffix s.get_dir_path Globals.CIPHERTEXT_ENDING)
                decrypt := false, excludes := s.get_exclude_dirs false
                ssh := pyOrOpt d.ssh_info s.ssh_info
                encryption_mode := s.encryption_mode }, ?_⟩
      unfold jobsForPair
      rw [check_security_eq]
      simp [hsf]
    · have hn : 0 < s.sensitive_folders.length := by rw [hsf]; simp
      have hgs : ∀ x, splitJobOf s d x =
          Except.ok
            ({ src := x
               dst := { sys_root := d.get_dir_path.sys_root, pth_root := d.get_dir_path.pth_root
                        sub_pth := pyPathParent x.sub_pth, ssh_info := d.ssh_info }
               encrypt := true, decrypt := false, excludes := []
               ssh := d.ssh_info, encryption_mode := EncryptionMode.DIRECTORY } : SyncJob) := by
        intro x
        simp [splitJobOf, splitDstRel, hmode]
      have hmapM := list_mapM_ok (splitJobOf s d) _ hgs s.sensitive_folders
      refine ⟨{ src := s.get_dir_path, dst := d.get_dir_path
                encrypt := s.is_sensitive && !(MyPath.has_suffix s.get_dir_path Globals.CIPHERTEXT_ENDING)
                decrypt := false, excludes := s.get_exclude_dirs true
                ssh := pyOrOpt d.ssh_info s.ssh_info
                encryption_mode := s.encryption_mode }, ?_⟩
      rw [hsf] at hmapM
      unfold jobsForPair
      rw [check_security_eq]
      simp [hn, hmapM, hsf]
  · intro raw hmode hn
    rcases hsf : s.sensitive_folders with _ | ⟨y, ys⟩
    · rw [hsf] at hn
      simp at hn
    · unfold jobsForPair
      rw [check_security_eq]
      simp [hsf, exceptMapM, splitJobOf, splitDstRel, hmode]

/-- Claim C5: splitting happens exactly when the destination is
untrusted and sensitive sub-paths are registered. A trusted destination
yields the single primary job with ordinary excludes only; an untrusted
destination without sensitive sub-paths likewise; an untrusted
destination with sensitive sub-paths yields the primary job with merged
excludes plus one derived job per sensitive sub-path. -/
theorem c5_splitting_condition (s d : DirectoryWrapper) :
    (jobsForPair true s d =
      Except.ok
        [({ src := s.get_dir_path, dst := d.get_dir_path
            encrypt := false, decrypt := s.is_sensitive
            excludes := s.exclude_folders.map (fun p => p.sub_pth)
            ssh := pyOrOpt d.ssh_info s.ssh_info
            encryption_mode := s.encryption_mode } : SyncJob)])
    ∧ (s.sensitive_folders = [] →
      jobsForPair false s d =
        Except.ok
          [({ src := s.get_dir_path, dst := d.get_dir_path
              encrypt := s.is_sensitive && !(MyPath.has_suffix s.get_dir_path Globals.CIPHERTEXT_ENDING)
              decrypt := false
              excludes := s.exclude_folders.map (fun p => p.sub_pth)
              ssh := pyOrOpt d.ssh_info s.ssh_info
              encryption_mode := s.encryption_mode } : SyncJob)])
    ∧ (0 < s.sensitive_folders.length →
      s.encryption_mode.recognized = true →
      ∃ primary splits,
        jobsForPair false s d = Except.ok (primary :: splits)
        ∧ splits.length = s.sensitive_folders.length
        ∧ primary.excludes = (s.exclude_folders ++ s.sensitive_folders).map (fun p => p.sub_pth)) := by
  refine ⟨?_, ?_, ?_⟩
  · unfold jobsForPair
    rw [check_security_eq]
    simp [DirectoryWrapper.get_exclude_dirs]
  · intro hsf
    unfold jobsForPair
    rw [check_security_eq]
    simp [hsf, DirectoryWrapper.get_exclude_dirs]
  · intro hn hm
    obtain ⟨gs, hgs, _⟩ := splitJobOf_recognized s d hm
    have hmapM := list_mapM_ok (splitJobOf s d) gs hgs s.sensitive_folders
    have hjob : jobsForPair false s d =
        Except.ok
          (({ src := s.get_dir_path, dst := d.get_dir_path
              encrypt := s.is_sensitive && !(MyPath.has_suffix s.get_dir_path Globals.CIPHERTEXT_ENDING)
              decrypt := false, excludes := s.get_exclude_dirs true
              ssh := pyOrOpt d.ssh_info s.ssh_info
              encryption_mode := s.encryption_mode } : SyncJob) :: s.sensitive_folders.map gs) := by
      unfold jobsForPair
      rw [check_security_eq]
      simp [hn, hmapM]
    refine ⟨_, _, hjob, by simp, ?_⟩
    simp [DirectoryWrapper.get_exclude_dirs]

/-! ### Matcher and preprocessing claims -/

/-- Claim C6: the automatic matcher fails exactly when some source lacks
an index-aligned destination (more sources than destinations) or some
index-aligned pair differs in sensitivity; surplus destinations alone
never cause failure. -/
theorem c6_automatic_matcher (src_paths dst_paths : List DirectoryWrapper) :
    check_matching_locations src_paths dst_paths = false ↔
      (dst_paths.length < src_paths.length
       ∨ ∃ p, p ∈ src_paths.zip dst_paths ∧ (p.1.is_sensitive != p.2.is_sensitive) = true) := by
  induction src_paths generalizing dst_paths with
  | nil => simp [check_matching_locations]
  | cons s ss ih =>
    cases dst_paths with
    | nil => simp [check_matching_locations]
    | cons d ds =>
      simp only [check_matching_locations]
      by_cases hb : (s.is_sensitive != d.is_sensitive) = true
      · rw [if_pos hb]
        simp only [List.zip_cons_cons, List.mem_cons]
        constructor
        · intro _
          exact Or.inr ⟨(s, d), Or.inl rfl, hb⟩
        · intro _
          trivial
      · rw [if_neg hb]
        rw [ih ds]
        simp only [List.zip_cons_cons, List.mem_cons, List.length_cons]
        constructor
        · rintro (h | ⟨p, hp, hmis⟩)
          · exact Or.inl (by omega)
          · exact Or.inr ⟨p, Or.inr hp, hmis⟩
        · rintro (h | ⟨p, hp | hp, hmis⟩)
          · exact Or.inl (by omega)
          · rw [hp] at hmis
            exact absurd hmis hb
          · exact Or.inr ⟨p, hp, hmis⟩

/-- Stripping trailing separators ignores one appended separator. -/
theorem rstripSlash_append_slash (p : String) : rstripSlash (p ++ "/") = rstripSlash p := by
  have h : ((p.data ++ ['/']).reverse.dropWhile (fun c => c == '/')) =
      (p.data.reverse.dropWhile (fun c => c == '/')) := by
    rw [List.reverse_append]
    simp [List.dropWhile]
  simp [rstripSlash, String.data_append, h]

/-- Claim C7: building a descriptor from an absolute configured sub-path
fails with the configuration error, while a sub-path carrying a trailing
separator succeeds with the separator stripped, producing the same
descriptor as the separator-free sub-path. -/
theorem c7_descriptor_construction (root p : String) (ssh : Option SshInfo)
    (sens : Bool) (mode : EncryptionMode) :
    (startsWithSlash p = true →
      DirectoryWrapper.mkInit root p ssh sens mode =
        Except.error ("Absolute path ignored: " ++ p))
    ∧ (startsWithSlash p = false → startsWithSlash (p ++ "/") = false →
      DirectoryWrapper.mkInit root (p ++ "/") ssh sens mode =
          DirectoryWrapper.mkInit root p ssh sens mode
        ∧ ∃ w, DirectoryWrapper.mkInit root p ssh sens mode = Except.ok w) := by
  constructor
  · intro habs
    simp [DirectoryWrapper.mkInit, habs]
  · intro h1 h2
    constructor
    · simp [DirectoryWrapper.mkInit, h1, h2, rstripSlash_append_slash]
    · refine ⟨{ ssh_info := ssh,
                root_path := { sys_root := root, pth_root := rstripSlash p,
                               sub_pth := "", ssh_info := ssh },
                sensitive_folders := [],
                exclude_folders := [],
                is_sensitive := sens,
                encryption_mode := mode }, ?_⟩
      simp [DirectoryWrapper.mkInit, h1]

/-! ### Claim C8: registered sensitive versus registered exclude lists -/

/-- A source location with one directory entry registering one sensitive
sub-folder and no exclude folders. -/
def c8Loc : LocationConfig :=
  { ssh := none, location_type := "src", root_dir := "/data",
    dirs := [{ sensitive := false, path := "photos", encryption_mode := none,
               exclude_folders := none, sensitive_folders := some [some "private"] }] }

/-- Claim C8 counterexample: after preprocessing this location the
descriptor registers the sensitive sub-path, yet its registered exclude
list is empty, so the registered sensitive sub-paths are not a subset of
the registered exclude sub-paths. -/
theorem c8_counterexample :
    ∃ w, preprocess_location (fun _ => true) c8Loc = Except.ok [w]
      ∧ ¬(∀ p, p ∈ w.sensitive_folders → p ∈ w.exclude_folders) := by
  refine ⟨{ ssh_info := none,
            root_path := { sys_root := "/data", pth_root := "photos",
                           sub_pth := "", ssh_info := none },
            sensitive_folders := [{ sys_root := "/data", pth_root := "photos",
                                    sub_pth := "private", ssh_info := none }],
            exclude_folders := [],
            is_sensitive := false,
            encryption_mode := EncryptionMode.FILE }, ?_, ?_⟩
  · rfl
  · intro h
    have hmem := h { sys_root := "/data", pth_root := "photos",
                     sub_pth := "private", ssh_info := none } (by simp)
    simp at hmem

/-- Claim C8 amended: every registered sensitive sub-path is contained
in the effective exclude list that get_exclude_dirs returns when merging
with the sensitive list is requested, which is how the planner excludes
sensitive sub-paths from the primary job; the registered exclude list
itself does not automatically contain them. -/
theorem c8_amended_sensitive_in_merged_excludes (w : DirectoryWrapper) (p : MyPath)
    (h : p ∈ w.sensitive_folders) :
    p.sub_pth ∈ w.get_exclude_dirs true := by
  unfold DirectoryWrapper.get_exclude_dirs
  simp only [if_pos]
  exact List.mem_map.mpr ⟨p, List.mem_append_right _ h, rfl⟩

/-- The descriptor of the C8 counterexample, reused for the amended
claim's witness. -/
def c8Desc : DirectoryWrapper :=
  { ssh_info := none,
    root_path := { sys_root := "/data", pth_root := "photos",
                   sub_pth := "", ssh_info := none },
    sensitive_folders := [{ sys_root := "/data", pth_root := "photos",
                            sub_pth := "private", ssh_info := none }],
    exclude_folders := [],
    is_sensitive := false,
    encryption_mode := EncryptionMode.FILE }

/-- Witness for the amended C8 claim at a concrete descriptor. -/
theorem c8_amended_witness :
    ({ sys_root := "/data", pth_root := "photos",
       sub_pth := "private", ssh_info := none } : MyPath).sub_pth ∈
      c8Desc.get_exclude_dirs true :=
  c8_amended_sensitive_in_merged_excludes c8Desc _ (by simp [c8Desc])

/-! ### Claim C9: executor failure accounting -/

/-- A concrete job for exercising the executor. -/
def c9Job : SyncJob :=
  { src := { sys_root := "/data", pth_root := "photos", sub_pth := "", ssh_info := none },
    dst := { sys_root := "/backup", pth_root := "photos", sub_pth := "", ssh_info := none },
    encrypt := false, decrypt := false, excludes := [], ssh := none,
    encryption_mode := EncryptionMode.FILE }

/-- Claim C9 evaluation: a destination-creation failure leaves the error
counter untouched, so the run still reports success, while an encryption
failure, a transfer failure and a decryption failure each make the run
report failure. -/
theorem c9_create_dir_failure_uncounted :
    execute_sync_jobs [(c9Job,
      { create_dir_ok := false, encrypt_result := none, rsync_ok := true, decrypt_results := [] })] = true
    ∧ execute_sync_jobs [({ c9Job with encrypt := true },
      { create_dir_ok := true, encrypt_result := none, rsync_ok := true, decrypt_results := [] })] = false
    ∧ execute_sync_jobs [(c9Job,
      { create_dir_ok := true, encrypt_result := none, rsync_ok := false, decrypt_results := [] })] = false
    ∧ execute_sync_jobs [(c9Job,
      { create_dir_ok := true, encrypt_result := none, rsync_ok := true, decrypt_results := [false] })] = false :=
  ⟨rfl, rfl, rfl, rfl⟩

/-! ### Claim C10: destination-role preprocessing -/

/-- A successfully constructed descriptor starts with empty sensitive and
exclude lists. -/
theorem mkInit_empty_lists (sys pth : String) (ssh : Option SshInfo) (sens : Bool)
    (mode : EncryptionMode) (w : DirectoryWrapper)
    (h : DirectoryWrapper.mkInit sys pth ssh sens mode = Except.ok w) :
    w.sensitive_folders = [] ∧ w.exclude_folders = [] := by
  unfold DirectoryWrapper.mkInit at h
  by_cases hs : startsWithSlash pth = true
  · rw [if_pos hs] at h
    cases h
  · rw [if_neg hs] at h
    injection h with h
    subst h
    exact ⟨rfl, rfl⟩

/-- Preprocessing a destination-role location never consults the
existence oracle. -/
theorem preprocessDirs_dst_indep (f g : MyPath → Bool) (ssh : Option SshInfo)
    (root : String) :
    ∀ dirs, preprocessDirs f ssh "dst" root dirs = preprocessDirs g ssh "dst" root dirs := by
  have hne : (("dst" : String) == "src") = false := by decide
  intro dirs
  induction dirs with
  | nil => rfl
  | cons e rest ih =>
    simp only [preprocessDirs]
    rcases hmode : EncryptionMode.ofString (e.encryption_mode.getD "file") with em | m
    · simp only [hmode]
    · simp only [hmode]
      rcases hinit : DirectoryWrapper.mkInit root e.path ssh e.sensitive m with ei | w0
      · simp only [hinit]
      · simp only [hinit]
        simp [hne, ih]

/-- Preprocessing a destination-role location yields only descriptors
with empty sensitive and exclude lists. -/
theorem preprocessDirs_dst_empty (f : MyPath → Bool) (ssh : Option SshInfo)
    (root : String) :
    ∀ dirs ws, preprocessDirs f ssh "dst" root dirs = Except.ok ws →
      ∀ w ∈ ws, w.sensitive_folders = [] ∧ w.exclude_folders = [] := by
  have hne : (("dst" : String) == "src") = false := by decide
  intro dirs
  induction dirs with
  | nil =>
    intro ws h w hw
    injection h with h
    subst h
    cases hw
  | cons e rest ih =>
    intro ws h w hw
    rw [preprocessDirs] at h
    rcases hmode : EncryptionMode.ofString (e.encryption_mode.getD "file") with em | m
    · simp only [hmode] at h
      simp at h
    · simp only [hmode] at h
      rcases hinit : DirectoryWrapper.mkInit root e.path ssh e.sensitive m with ei | w0
      · simp only [hinit] at h
        simp at h
      · simp only [hinit] at h
        rw [if_neg (by simp [hne])] at h
        rw [if_neg (by simp [hne])] at h
        rcases hrec : preprocessDirs f ssh "dst" root rest with er | rest2
        · simp only [hrec] at h
          simp at h
        · simp only [hrec, Except.ok.injEq] at h
          subst h
          rcases List.mem_cons.mp hw with hw1 | hw1
          · subst hw1
            exact mkInit_empty_lists root e.path ssh e.sensitive m w hinit
          · exact ih rest2 hrec w hw1

/-- Claim C10: preprocessing a destination-role location is independent
of the existence oracle, produces only descriptors with empty sensitive
and exclude lists, and the planner reads neither list from the
destination descriptor, so split jobs and exclude lists depend on the
source descriptors alone. -/
theorem c10_destination_preprocessing (f g : MyPath → Bool) (loc : LocationConfig)
    (h : loc.location_type = "dst") :
    preprocess_location f loc = preprocess_location g loc
    ∧ (∀ ws, preprocess_location f loc = Except.ok ws →
        ∀ w ∈ ws, w.sensitive_folders = [] ∧ w.exclude_folders = [])
    ∧ (∀ (t : Bool) (s dd : DirectoryWrapper) (x y : List MyPath),
        jobsForPair t s dd =
          jobsForPair t s { dd with sensitive_folders := x, exclude_folders := y }) := by
  refine ⟨?_, ?_, ?_⟩
  · unfold preprocess_location
    rw [h]
    exact preprocessDirs_dst_indep f g loc.ssh loc.root_dir loc.dirs
  · unfold preprocess_location
    rw [h]
    exact fun ws hws => preprocessDirs_dst_empty f loc.ssh loc.root_dir loc.dirs ws hws
  · intro t s dd x y
    rfl

/-! ### Concrete witnesses -/

/-- A source descriptor with two sensitive sub-paths and one ordinary
exclude, per-file mode. -/
def c3Src : DirectoryWrapper :=
  { ssh_info := none,
    root_path := { sys_root := "/r", pth_root := "photos", sub_pth := "", ssh_info := none },
    sensitive_folders := [{ sys_root := "/r", pth_root := "photos", sub_pth := "private", ssh_info := none },
                          { sys_root := "/r", pth_root := "photos", sub_pth := "keys", ssh_info := none }],
    exclude_folders := [{ sys_root := "/r", pth_root := "photos", sub_pth := "cache", ssh_info := none }],
    is_sensitive := false, encryption_mode := EncryptionMode.FILE }

/-- A plain destination descriptor. -/
def c3Dst : DirectoryWrapper :=
  { ssh_info := none,
    root_path := { sys_root := "/b", pth_root := "photos", sub_pth := "", ssh_info := none },
    sensitive_folders := [], exclude_folders := [],
    is_sensitive := false, encryption_mode := EncryptionMode.FILE }

/-- Witness for claim C3 at a concrete two-sensitive-sub-path pair. -/
theorem c3_witness :
    ∃ primary splits,
      jobsForPair false c3Src c3Dst = Except.ok (primary :: splits)
      ∧ (∀ st : Bool, build_sync_jobs ⟨[c3Src], st⟩ ⟨[c3Dst], false⟩ = Except.ok (primary :: splits))
      ∧ splits.length = c3Src.sensitive_folders.length
      ∧ primary.excludes = (c3Src.exclude_folders ++ c3Src.sensitive_folders).map (fun p => p.sub_pth)
      ∧ ∀ j ∈ splits, j.encrypt = true ∧ j.decrypt = false ∧ j.excludes = [] :=
  c3_untrusted_split_jobs c3Src c3Dst (by decide) (by decide)

/-- A per-file-mode source descriptor with one sensitive sub-path. -/
def c4Src : DirectoryWrapper :=
  { ssh_info := none,
    root_path := { sys_root := "/r", pth_root := "docs", sub_pth := "", ssh_info := none },
    sensitive_folders := [{ sys_root := "/r", pth_root := "docs", sub_pth := "secret/inner", ssh_info := none }],
    exclude_folders := [],
    is_sensitive := false, encryption_mode := EncryptionMode.FILE }

/-- A plain destination descriptor for the C4 witness. -/
def c4Dst : DirectoryWrapper :=
  { ssh_info := none,
    root_path := { sys_root := "/b", pth_root := "docs", sub_pth := "", ssh_info := none },
    sensitive_folders := [], exclude_folders := [],
    is_sensitive := false, encryption_mode := EncryptionMode.FILE }

/-- Witness for claim C4: per-file mode at a concrete pair. -/
theorem c4_witness :
    ∃ primary, jobsForPair false c4Src c4Dst =
      Except.ok (primary :: c4Src.sensitive_folders.map (fun x =>
        ({ src := x
           dst := { sys_root := c4Dst.get_dir_path.sys_root, pth_root := c4Dst.get_dir_path.pth_root
                    sub_pth := pyPath x.sub_pth, ssh_info := c4Dst.ssh_info }
           encrypt := true, decrypt := false, excludes := []
           ssh := c4Dst.ssh_info, encryption_mode := EncryptionMode.FILE } : SyncJob))) :=
  (c4_split_destination c4Src c4Dst).1 rfl

/-- A directory-mode source descriptor with one sensitive sub-path. -/
def c5Src : DirectoryWrapper :=
  { ssh_info := none,
    root_path := { sys_root := "/r", pth_root := "music", sub_pth := "", ssh_info := none },
    sensitive_folders := [{ sys_root := "/r", pth_root := "music", sub_pth := "own", ssh_info := none }],
    exclude_folders := [{ sys_root := "/r", pth_root := "music", sub_pth := "tmp", ssh_info := none }],
    is_sensitive := false, encryption_mode := EncryptionMode.DIRECTORY }

/-- A plain destination descriptor for the C5 witness. -/
def c5Dst : DirectoryWrapper :=
  { ssh_info := none,
    root_path := { sys_root := "/b", pth_root := "music", sub_pth := "", ssh_info := none },
    sensitive_folders := [], exclude_folders := [],
    is_sensitive := false, encryption_mode := EncryptionMode.DIRECTORY }

/-- Witness for claim C5 at a concrete untrusted pair with a sensitive
sub-path. -/
theorem c5_witness :
    ∃ primary splits,
      jobsForPair false c5Src c5Dst = Except.ok (primary :: splits)
      ∧ splits.length = c5Src.sensitive_folders.length
      ∧ primary.excludes = (c5Src.exclude_folders ++ c5Src.sensitive_folders).map (fun p => p.sub_pth) :=
  (c5_splitting_condition c5Src c5Dst).2.2 (by decide) (by decide)

/-- A sensitive source descriptor for the C6 witness. -/
def c6Src : DirectoryWrapper :=
  { ssh_info := none,
    root_path := { sys_root := "/r", pth_root := "vault", sub_pth := "", ssh_info := none },
    sensitive_folders := [], exclude_folders := [],
    is_sensitive := true, encryption_mode := EncryptionMode.FILE }

/-- A non-sensitive destination descriptor for the C6 witness. -/
def c6Dst : DirectoryWrapper :=
  { ssh_info := none,
    root_path := { sys_root := "/b", pth_root := "vault", sub_pth := "", ssh_info := none },
    sensitive_folders := [], exclude_folders := [],
    is_sensitive := false, encryption_mode := EncryptionMode.FILE }

/-- Witness for claim C6: a sensitivity mismatch at index zero fails. -/
theorem c6_witness : check_matching_locations [c6Src] [c6Dst] = false :=
  (c6_automatic_matcher [c6Src] [c6Dst]).mpr
    (Or.inr ⟨(c6Src, c6Dst), by simp, by decide⟩)

/-- Witness for claim C7 at a concrete absolute path and a concrete
trailing-separator path. -/
theorem c7_witness :
    (DirectoryWrapper.mkInit "/r" "/etc" none false EncryptionMode.FILE =
      Except.error ("Absolute path ignored: " ++ "/etc"))
    ∧ (DirectoryWrapper.mkInit "/r" ("photos" ++ "/") none false EncryptionMode.FILE =
        DirectoryWrapper.mkInit "/r" "photos" none false EncryptionMode.FILE
      ∧ ∃ w, DirectoryWrapper.mkInit "/r" "photos" none false EncryptionMode.FILE = Except.ok w) :=
  ⟨(c7_descriptor_construction "/r" "/etc" none false EncryptionMode.FILE).1 (by decide),
   (c7_descriptor_construction "/r" "photos" none false EncryptionMode.FILE).2 (by decide) (by decide)⟩

/-- A destination-role location for the C10 witness. -/
def c10Loc : LocationConfig :=
  { ssh := none, location_type := "dst", root_dir := "/backup",
    dirs := [{ sensitive := false, path := "photos", encryption_mode := none,
               exclude_folders := none, sensitive_folders := none }] }

/-- Witness for claim C10: preprocessing the destination location is the
same under two different existence oracles. -/
theorem c10_witness :
    preprocess_location (fun _ => true) c10Loc = preprocess_location (fun _ => false) c10Loc :=
  (c10_destination_preprocessing (fun _ => true) (fun _ => false) c10Loc rfl).1
